import Mathlib

/-!
Verification development for the `ea_lidar` tile-acquisition pipeline
(`tile_downloader.py`, `lidar_downloader.py`).  Pure control flow and data
handling are embedded as Lean functions; the external collaborators
(the selenium-driven portal, the aiohttp/urllib transports, the shapely
geometry kernel and the rio-cogeo converter) are injected as parameters,
so that every claim is settled against the repository's own logic.
-/

namespace EaLidar

/-! ### Label matching, tile_downloader.py line 286
`re.search(tile_name, name, re.IGNORECASE)`: a case-insensitive occurrence
test of the requested tile name inside a listed label (tile keys are plain
alphanumeric strings, so the regex degenerates to substring search). -/

/-- `charsStartWith p s`: `s` begins with `p` (character lists). -/
def charsStartWith : List Char → List Char → Bool
  | [], _ => true
  | _ :: _, [] => false
  | p :: ps, c :: cs => p == c && charsStartWith ps cs

/-- `charsOccur p s`: `p` occurs contiguously somewhere inside `s`. -/
def charsOccur (p : List Char) : List Char → Bool
  | [] => p.isEmpty
  | c :: cs => charsStartWith p (c :: cs) || charsOccur p cs

/-- ASCII lower-casing of one character (the case folding performed by
`re.IGNORECASE` on the ASCII tile keys and labels in play). -/
def lowerChar (c : Char) : Char :=
  if 65 ≤ c.toNat ∧ c.toNat ≤ 90 then Char.ofNat (c.toNat + 32) else c

/-- Case-insensitive occurrence of the tile name in a label
(`re.search(tile_name, name, re.IGNORECASE)`). -/
def labelMatches (tileName label : String) : Bool :=
  charsOccur (tileName.data.map lowerChar) (label.data.map lowerChar)

/-- A results-list entry: (label text, href), tile_downloader.py lines 278-287. -/
abbrev Link := String × String

/-- `matching_products` collected for one year:
tile_downloader.py lines 276-287. -/
def matchingProducts (tileName : String) (links : List Link) : List Link :=
  links.filter (fun l => labelMatches tileName l.1)

/-- The year loop of `download_lidar_dsm`, tile_downloader.py lines 263-353.
Years are visited in the order presented by the portal; each year's links
are filtered; a year with a nonempty match list is processed and then the
loop `break`s (line 343); the `for`/`else` arm (lines 350-353) raises the
no-match exception only when no year broke.  The input is, per year, the
links listed for that year; the output is the number of years scanned
paired with the loop's outcome (`.error ()` models the raised
"No matching products found" exception). -/
def yearLoop (tileName : String) : List (List Link) → Nat × Except Unit (List Link)
  | [] => (0, .error ())
  | y :: rest =>
    if matchingProducts tileName y = [] then
      let r := yearLoop tileName rest
      (r.1 + 1, r.2)
    else
      (1, .ok (matchingProducts tileName y))

/-- C3: for every sequence of year options presented by the portal, the
year loop short-circuits at the first year for which at least one label
matches the requested tile name — exactly that year and the non-matching
years before it are scanned, and the loop returns that year's matching
links — and when no year yields a match the attempt fails with the
no-match error only after every year option has been scanned exactly
once, never before, and never when some earlier year did match. -/
theorem c3_theorem :
    (∀ (tileName : String) (pre : List (List Link)) (y : List Link)
        (post : List (List Link)),
      (∀ z ∈ pre, matchingProducts tileName z = []) →
      matchingProducts tileName y ≠ [] →
      yearLoop tileName (pre ++ y :: post) =
        (pre.length + 1, .ok (matchingProducts tileName y))) ∧
    (∀ (tileName : String) (years : List (List Link)),
      (∀ z ∈ years, matchingProducts tileName z = []) →
      yearLoop tileName years = (years.length, .error ())) := by
  constructor
  · intro tileName pre y post hpre hy
    induction pre with
    | nil => simp [yearLoop, hy]
    | cons z zs ih =>
      have hz : matchingProducts tileName z = [] := hpre z (by simp)
      have ih' := ih (fun w hw => hpre w (by simp [hw]))
      simp [yearLoop, hz, ih']
  · intro tileName years h
    induction years with
    | nil => simp [yearLoop]
    | cons z zs ih =>
      have hz : matchingProducts tileName z = [] := h z (by simp)
      have ih' := ih (fun w hw => h w (by simp [hw]))
      simp [yearLoop, hz, ih']

/-- Witness for C3: with tile `"st68nw"`, a first year listing only
`"TL00"` (no match), a second year listing `"ST68NW_DSM"` (case-insensitive
match) and a third year after it, exactly two years are scanned and the
second year's links are returned; the third year is never visited. -/
theorem c3_witness :
    yearLoop "st68nw"
        ([[("TL00", "h0")]] ++ [("ST68NW_DSM", "h1")] :: [[("X", "h2")]]) =
      ([[("TL00", "h0")]].length + 1,
        .ok (matchingProducts "st68nw" [("ST68NW_DSM", "h1")])) :=
  c3_theorem.1 "st68nw" [[("TL00", "h0")]] [("ST68NW_DSM", "h1")] [[("X", "h2")]]
    (by decide) (by decide)

/-! ### Download step

`download_file`, tile_downloader.py lines 70-81: one `session.get`; on
status 200 the body is streamed to the output file; on any other status
the function prints "Failed to download ..." and returns normally with
nothing written.  The aiohttp call is injected: `.error` is a transport
exception raised by `session.get`, `.ok` a response carrying status and
body.  The `Nat` component counts the network requests the call issues
(always the single `session.get`; there is no internal retry loop). -/

structure HttpResponse where
  status : Nat
  body : String
deriving DecidableEq, Repr

def download_file (transport : Except String HttpResponse) :
    Nat × Except String (Option String) :=
  (1, match transport with
      | .error e => .error e
      | .ok resp => .ok (if resp.status == 200 then some resp.body else none))

/-- Outcome of `urllib.request.urlretrieve` (external transport):
any failure, including a non-success HTTP status, surfaces as an
exception with a reason. -/
inductive UrlFetch where
  | ok (bytes : String)
  | failed (reason : String)
deriving DecidableEq, Repr

/-- `LidarDownloader.download_url`, lidar_downloader.py lines 141-153:
a single `urlretrieve`; any exception is wrapped into
`DownloadError("Failed to download " + url + ": " + reason)`, an error
message carrying the URL and the reason.  The `Nat` counts requests
issued (always one; no internal retry — `retry_on_exception` is not
applied to this method). -/
def download_url (url : String) (fetch : UrlFetch) :
    Nat × Except String String :=
  (1, match fetch with
      | .ok b => .ok b
      | .failed r => .error ("Failed to download " ++ url ++ ": " ++ r))

/-- C6 counterexample: `download_file` on a response with non-success
status 404 returns normally (an `.ok` outcome with nothing written) with
no `DownloadError` — contradicting the claim that the download step never
returns normally on a non-success status (tile_downloader.py lines 80-81
print a message and fall through). -/
theorem c6_counterexample :
    download_file (.ok ⟨404, "not found"⟩) = (1, .ok none) := rfl

/-- C6 amended: `download_url` raises `DownloadError` carrying the URL and
the reason on any fetch failure and issues exactly one request (no
internal retry); `download_file` also issues exactly one request per call
with no internal retry, but on a non-success status it logs and returns
normally with nothing written instead of raising. -/
theorem c6_amended_theorem :
    (∀ url reason : String,
        download_url url (.failed reason) =
          (1, .error ("Failed to download " ++ url ++ ": " ++ reason))) ∧
    (∀ (url : String) (f : UrlFetch), (download_url url f).1 = 1) ∧
    (∀ t, (download_file t).1 = 1) ∧
    (∀ resp : HttpResponse, resp.status ≠ 200 →
        download_file (.ok resp) = (1, .ok none)) := by
  refine ⟨fun url r => rfl, fun url f => rfl, fun t => rfl, ?_⟩
  intro resp h
  simp [download_file, beq_iff_eq, h]

/-- Witness for C6 amended: a failed fetch of a concrete URL yields the
`DownloadError` message with that URL and reason, and a concrete 500
response makes `download_file` return normally with nothing written. -/
theorem c6_witness :
    download_url "http://x/y.zip" (.failed "timeout") =
      (1, .error ("Failed to download " ++ "http://x/y.zip" ++ ": " ++ "timeout")) ∧
    download_file (.ok ⟨500, "err"⟩) = (1, .ok none) :=
  ⟨c6_amended_theorem.1 "http://x/y.zip" "timeout",
   c6_amended_theorem.2.2.2 ⟨500, "err"⟩ (by decide)⟩

/-! ### Neighbor expansion, tile_downloader.py lines 156-172

`current_tile = gdf[gdf['tile_name'] == tile_name]`,
`neighbors = gdf[gdf.geometry.touches(current_tile.unary_union)]`,
`merged_geom = current_tile.geometry.unary_union.union(neighbors.geometry.unary_union)`.

Planar regions are embedded as finite sets of unit cells, so geometric
union is set union and area is cardinality; the shapely `touches`
predicate is an injected boolean relation (its semantics play no role in
the claim). -/

/-- A planar region as a finite set of unit cells. -/
abbrev Region := Finset (Int × Int)

/-- `unary_union` of the geometry column of a (filtered) GeoDataFrame. -/
def unaryUnion (rows : List (String × Region)) : Region :=
  rows.foldl (fun acc r => acc ∪ r.2) ∅

/-- `gdf[gdf['tile_name'] == tile_name]` (line 157). -/
def currentTile (gdf : List (String × Region)) (name : String) :
    List (String × Region) :=
  gdf.filter (fun r => r.1 == name)

/-- `gdf[gdf.geometry.touches(current_tile.unary_union)]` (line 165). -/
def neighborRows (touches : Region → Region → Bool)
    (gdf : List (String × Region)) (name : String) : List (String × Region) :=
  gdf.filter (fun r => touches r.2 (unaryUnion (currentTile gdf name)))

/-- `merged_geom` (line 168): union of the tile's own footprint with the
union of the touching rows' geometries. -/
def mergedGeom (touches : Region → Region → Bool)
    (gdf : List (String × Region)) (name : String) : Region :=
  unaryUnion (currentTile gdf name) ∪ unaryUnion (neighborRows touches gdf name)

/-- Area of a region (cell count). -/
def area (g : Region) : Nat := g.card

theorem unaryUnion_aux (rows : List (String × Region)) (acc : Region) :
    acc ⊆ rows.foldl (fun a r => a ∪ r.2) acc := by
  induction rows generalizing acc with
  | nil => exact fun x hx => hx
  | cons r rest ih =>
    exact fun x hx => ih (acc ∪ r.2) (Finset.mem_union_left _ hx)

/-- C7: for every tile name present in the index, the neighbor-expanded
footprint (union of the tile's geometry with every index row whose
geometry touches it) has area greater than or equal to the single-tile
footprint's area, and equal to it when no row of the index touches the
tile (no topological neighbors). -/
theorem c7_theorem :
    ∀ (touches : Region → Region → Bool) (gdf : List (String × Region))
      (name : String),
      (gdf.any fun r => r.1 == name) = true →
      area (unaryUnion (currentTile gdf name)) ≤
          area (mergedGeom touches gdf name) ∧
        (neighborRows touches gdf name = [] →
          area (mergedGeom touches gdf name) =
            area (unaryUnion (currentTile gdf name))) := by
  intro touches gdf name _
  constructor
  · exact Finset.card_le_card (Finset.subset_union_left)
  · intro hnb
    simp [mergedGeom, hnb, unaryUnion]

/-- Witness for C7: a one-row index containing tile `"A"` with a touches
predicate that relates nothing; the merged footprint's area equals the
single tile's area, and is in particular not smaller. -/
theorem c7_witness :
    area (unaryUnion (currentTile [("A", ({(0, 0)} : Region))] "A")) ≤
        area (mergedGeom (fun _ _ => false) [("A", ({(0, 0)} : Region))] "A") ∧
      (neighborRows (fun _ _ => false) [("A", ({(0, 0)} : Region))] "A" = [] →
        area (mergedGeom (fun _ _ => false) [("A", ({(0, 0)} : Region))] "A") =
          area (unaryUnion (currentTile [("A", ({(0, 0)} : Region))] "A"))) :=
  c7_theorem (fun _ _ => false) [("A", ({(0, 0)} : Region))] "A" (by decide)

/-! ### Vertex-bounded simplification,
lidar_downloader.py lines 209-217 (`LidarDownloader._simplify_geometry`)

```
tolerance = 10
while self._count_vertices(shp) > MAX_VERTICES:
    shp.geometry = shp.simplify(tolerance)
    tolerance *= 2
    if tolerance > 1000:  # Safety check
        raise ValueError("Could not simplify geometry sufficiently")
return shp
```

The geometry and its shapely operations are injected (`cnt` embeds
`_count_vertices`, `simplifyFn` embeds `shp.simplify(tolerance)`).  The
tolerance before the (k+1)-st pass is exactly `10 * 2 ^ k`, which is
the loop's `tolerance` variable after `k` doublings; the loop is indexed
by the pass count `k` so that the recursion is visibly bounded. -/

/-- `MAX_VERTICES`, lidar_downloader.py line 41. -/
def MAX_VERTICES : Nat := 1000

/-- The `while` loop of `_simplify_geometry`, starting at pass `k`
(tolerance `10 * 2 ^ k`); `.error ()` models the raised
`ValueError("Could not simplify geometry sufficiently")`. -/
def simplifyLoop {G : Type} (cnt : G → Nat) (simplifyFn : G → Nat → G)
    (k : Nat) (shp : G) : Except Unit G :=
  if cnt shp > MAX_VERTICES then
    let shp2 := simplifyFn shp (10 * 2 ^ k)
    if _h : 10 * 2 ^ (k + 1) > 1000 then .error ()
    else simplifyLoop cnt simplifyFn (k + 1) shp2
  else .ok shp
termination_by 7 - k
decreasing_by
  have h7 : k + 1 < 7 := by
    by_contra hk
    have h7le : (7 : Nat) ≤ k + 1 := Nat.not_lt.mp hk
    have hp : (2 : Nat) ^ 7 ≤ 2 ^ (k + 1) :=
      Nat.pow_le_pow_right (by norm_num) h7le
    have hm : (10 : Nat) * 2 ^ 7 ≤ 10 * 2 ^ (k + 1) :=
      Nat.mul_le_mul_left _ hp
    norm_num at hm
    omega
  omega

/-- `_simplify_geometry` (tolerance starts at 10, i.e. pass 0). -/
def simplify_geometry {G : Type} (cnt : G → Nat) (simplifyFn : G → Nat → G)
    (shp : G) : Except Unit G :=
  simplifyLoop cnt simplifyFn 0 shp

/-- Demonstration vertex counter: the geometry is represented by its own
vertex count. -/
def demoCnt : Nat → Nat := fun g => g

/-- Demonstration shapely `simplify`: ineffective at every tolerance
except 640, where it reduces the geometry to 5 vertices. -/
def demoSimplify : Nat → Nat → Nat := fun g t => if t == 640 then 5 else g

/-- C4: evaluation at the failing input.  On a geometry of 2000 vertices
whose simplification only succeeds at tolerance 640 (the last tolerance
the loop ever applies), the code raises
`ValueError("Could not simplify geometry sufficiently")` even though the
last pass already satisfied the vertex limit: after the 640-pass the
doubled tolerance (1280) trips the cap check before the vertex count is
re-checked, contradicting both the claim ("never when the last pass
already satisfied it") and the code's own error message. -/
theorem c4_bug_eval :
    simplify_geometry demoCnt demoSimplify 2000 = .error () ∧
      demoCnt (demoSimplify 2000 640) ≤ MAX_VERTICES := by
  constructor
  · simp [simplify_geometry, simplifyLoop, demoCnt, demoSimplify, MAX_VERTICES]
  · decide

/-! ### Retry loop and batch skeleton,
tile_downloader.py lines 134-135, 145-162, 194-388

`download_lidar_dsm` creates one process-wide temp directory
(`tmp_dir = tempfile.mkdtemp()`, line 135), then loops over the requested
tiles (line 146).  A tile absent from the parquet index is warned about
and skipped (`continue`, lines 160-162).  For a present tile the retry
`while` loop (lines 194-385) runs: each attempt opens a browser session
(`setup_browser`, line 197), runs the portal workflow, and `break`s on
success (line 372); on an exception `retry_count` is incremented and,
when it reaches `max_retries`, the exception is re-raised (line 378),
propagating out of the tile loop; the `finally` block quits the browser
on every exit of the attempt (lines 382-385).  Only after the tile loop
completes normally is the temp directory removed
(`shutil.rmtree(tmp_dir)`, line 388) — there is no enclosing
try/finally.  The attempt bodies are injected as an oracle mapping the
attempt index to its outcome. -/

/-- Outcome of one attempt body (the whole portal workflow between
`setup_browser` and the `break`): either it completes, or some step
raises. -/
inductive AttemptOutcome where
  | success
  | failure
deriving DecidableEq, Repr

/-- Observable resource state of one `download_lidar_dsm` call:
browser sessions opened/quit, tiles whose retry loop was entered, tiles
skipped as missing from the index, and whether the `mkdtemp` directory
still exists. -/
structure BatchSt where
  opens : Nat
  quits : Nat
  processed : List String
  skipped : List String
  tmpDirLive : Bool
deriving DecidableEq, Repr

/-- The retry `while` loop (lines 194-385), indexed by the number of
still-permitted iterations `remaining = max_retries - retry_count`
(so the loop guard `retry_count < max_retries` is `remaining > 0`, and
the `retry_count == max_retries` test after the increment is
`remaining = 1` before it — the two non-zero clauses inline that test).
`attempt` is the index fed to the outcome oracle.  `.error st` models the
re-raise at line 378 escaping the loop; both branches thread the
`finally` quit (lines 382-385). -/
def retryGo (oracle : Nat → AttemptOutcome) (attempt : Nat) :
    Nat → BatchSt → Except BatchSt BatchSt
  | 0, st => .ok st
  | 1, st =>
    let st1 := { st with opens := st.opens + 1 }
    match oracle attempt with
    | .success => .ok { st1 with quits := st1.quits + 1 }
    | .failure => .error { st1 with quits := st1.quits + 1 }
  | r + 2, st =>
    let st1 := { st with opens := st.opens + 1 }
    match oracle attempt with
    | .success => .ok { st1 with quits := st1.quits + 1 }
    | .failure => retryGo oracle (attempt + 1) (r + 1)
        { st1 with quits := st1.quits + 1 }

/-- The retry loop entered with `retry_count = 0`. -/
def retryLoop (oracle : Nat → AttemptOutcome) (maxRetries : Nat)
    (st : BatchSt) : Except BatchSt BatchSt :=
  retryGo oracle 0 maxRetries st

/-- The `for tile_name in tile_names` loop (lines 146-385): missing tiles
are warned and skipped; a raise escaping a tile's retry loop propagates
out of the whole loop. -/
def tileLoop (gdfNames : List String) (maxRetries : Nat) :
    List (String × (Nat → AttemptOutcome)) → BatchSt → Except BatchSt BatchSt
  | [], st => .ok st
  | (name, oracle) :: rest, st =>
    if gdfNames.contains name then
      match retryLoop oracle maxRetries
          { st with processed := st.processed ++ [name] } with
      | .ok st' => tileLoop gdfNames maxRetries rest st'
      | .error st' => .error st'
    else
      tileLoop gdfNames maxRetries rest
        { st with skipped := st.skipped ++ [name] }

/-- `download_lidar_dsm`'s resource skeleton: temp dir created up front
(line 135), tile loop, and `shutil.rmtree(tmp_dir)` (line 388) reached
only on normal completion — a propagating exception skips it. -/
def download_lidar_dsm_model (gdfNames : List String)
    (tiles : List (String × (Nat → AttemptOutcome))) (maxRetries : Nat) :
    Except BatchSt BatchSt :=
  let st0 : BatchSt :=
    { opens := 0, quits := 0, processed := [], skipped := [], tmpDirLive := true }
  match tileLoop gdfNames maxRetries tiles st0 with
  | .ok st => .ok { st with tmpDirLive := false }
  | .error st => .error st

/-- The final state of a call, whether it returned or raised. -/
def stOf : Except BatchSt BatchSt → BatchSt
  | .ok st => st
  | .error st => st

/-- Whether the call raised. -/
def raisedE : Except BatchSt BatchSt → Bool
  | .ok _ => false
  | .error _ => true

theorem retryGo_delta (oracle : Nat → AttemptOutcome) :
    ∀ (remaining attempt : Nat) (st : BatchSt),
      ∃ k, stOf (retryGo oracle attempt remaining st) =
        { st with opens := st.opens + k, quits := st.quits + k } := by
  intro remaining
  induction remaining using Nat.strong_induction_on with
  | _ n ih =>
    intro attempt st
    rcases n with _ | (_ | r)
    · exact ⟨0, by simp [retryGo, stOf]⟩
    · cases h : oracle attempt with
      | success => exact ⟨1, by simp [retryGo, h, stOf]⟩
      | failure => exact ⟨1, by simp [retryGo, h, stOf]⟩
    · cases h : oracle attempt with
      | success => exact ⟨1, by simp [retryGo, h, stOf]⟩
      | failure =>
        obtain ⟨k, hk⟩ := ih (r + 1) (by omega) (attempt + 1)
          { st with opens := st.opens + 1, quits := st.quits + 1 }
        refine ⟨k + 1, ?_⟩
        simp only [retryGo, h]
        rw [hk]
        simp [BatchSt.mk.injEq]
        omega

theorem tileLoop_delta (gdfNames : List String) (maxRetries : Nat) :
    ∀ (tiles : List (String × (Nat → AttemptOutcome))) (st : BatchSt),
      ∃ k pr sk, stOf (tileLoop gdfNames maxRetries tiles st) =
        { st with opens := st.opens + k, quits := st.quits + k,
                  processed := st.processed ++ pr,
                  skipped := st.skipped ++ sk } := by
  intro tiles
  induction tiles with
  | nil =>
    intro st
    exact ⟨0, [], [], by simp [tileLoop, stOf]⟩
  | cons t rest ih =>
    intro st
    obtain ⟨name, oracle⟩ := t
    by_cases hname : name ∈ gdfNames
    · obtain ⟨k1, hk1⟩ := retryGo_delta oracle maxRetries 0
        { st with processed := st.processed ++ [name] }
      cases hcall : retryGo oracle 0 maxRetries
          { st with processed := st.processed ++ [name] } with
      | ok st' =>
        rw [hcall] at hk1
        simp only [stOf] at hk1
        obtain ⟨k2, pr2, sk2, hk2⟩ := ih st'
        refine ⟨k1 + k2, [name] ++ pr2, sk2, ?_⟩
        simp [tileLoop, retryLoop, hname, hcall]
        rw [hk2, hk1]
        simp [BatchSt.mk.injEq]
        omega
      | error st' =>
        rw [hcall] at hk1
        simp only [stOf] at hk1
        refine ⟨k1, [name], [], ?_⟩
        simp [tileLoop, retryLoop, hname, hcall, stOf]
        rw [hk1]
    · obtain ⟨k, pr, sk, hk⟩ := ih { st with skipped := st.skipped ++ [name] }
      refine ⟨k, pr, [name] ++ sk, ?_⟩
      simp [tileLoop, hname]
      rw [hk]
      simp [BatchSt.mk.injEq]

/-- C1 counterexample: a batch of the single tile `"A"` (present in the
index) whose only attempt fails, with `max_retries = 1`.  The call raises
(the re-raise at line 378) and in the resulting state the `mkdtemp`
directory is still alive: the cleanup at line 388 was skipped, so the
temp directory created at the start of `download_lidar_dsm` is *not*
removed when the attempt loop exits by raising. -/
theorem c1_counterexample :
    download_lidar_dsm_model ["A"] [("A", fun _ => AttemptOutcome.failure)] 1 =
      .error { opens := 1, quits := 1, processed := ["A"], skipped := [],
               tmpDirLive := true } := rfl

/-- C1 amended: the automation session is released on every exit path of
every attempt (the `finally` at lines 382-385 quits the browser whether
the attempt succeeded, failed and will be retried, or failed terminally),
so sessions opened always equal sessions quit; but the temp directory —
which is process-scoped, shared by all tiles and attempts, not
attempt-scoped — is removed exactly when the call completes without
raising: on the raising exit path (retry exhaustion, line 378) it is
leaked. -/
theorem c1_amended_theorem :
    ∀ (gdfNames : List String)
      (tiles : List (String × (Nat → AttemptOutcome))) (maxRetries : Nat),
      (stOf (download_lidar_dsm_model gdfNames tiles maxRetries)).opens =
          (stOf (download_lidar_dsm_model gdfNames tiles maxRetries)).quits ∧
        (stOf (download_lidar_dsm_model gdfNames tiles maxRetries)).tmpDirLive =
          raisedE (download_lidar_dsm_model gdfNames tiles maxRetries) := by
  intro gdfNames tiles maxRetries
  obtain ⟨k, pr, sk, hk⟩ := tileLoop_delta gdfNames maxRetries tiles
    { opens := 0, quits := 0, processed := [], skipped := [], tmpDirLive := true }
  cases hcall : tileLoop gdfNames maxRetries tiles
      { opens := 0, quits := 0, processed := [], skipped := [],
        tmpDirLive := true } with
  | ok st =>
    rw [hcall] at hk
    simp only [stOf] at hk
    simp [download_lidar_dsm_model, hcall, stOf, raisedE, hk]
  | error st =>
    rw [hcall] at hk
    simp only [stOf] at hk
    simp [download_lidar_dsm_model, hcall, stOf, raisedE, hk]

theorem retryGo_allfail (oracle : Nat → AttemptOutcome)
    (hf : ∀ i, oracle i = .failure) :
    ∀ (m attempt : Nat) (st : BatchSt), 0 < m →
      retryGo oracle attempt m st =
        .error { st with opens := st.opens + m, quits := st.quits + m } := by
  intro m
  induction m with
  | zero => intro attempt st h; omega
  | succ r ih =>
    intro attempt st _
    cases r with
    | zero => simp [retryGo, hf attempt]
    | succ r' =>
      have := ih (attempt + 1)
        { st with opens := st.opens + 1, quits := st.quits + 1 } (by omega)
      simp [retryGo, hf attempt, this, BatchSt.mk.injEq]
      omega

/-- C5 counterexample: a batch of two tiles, both present in the index,
where tile `"A"` exhausts its retry bound (`max_retries = 1`) and tile
`"B"` would succeed.  The call raises with only `"A"` processed: the
terminal failure of `"A"` halted the batch, `"B"` was never attempted,
and the failure surfaced as an exception from the whole call, not as a
per-tile result. -/
theorem c5_counterexample :
    download_lidar_dsm_model ["A", "B"]
        [("A", fun _ => AttemptOutcome.failure),
         ("B", fun _ => AttemptOutcome.success)] 1 =
      .error { opens := 1, quits := 1, processed := ["A"], skipped := [],
               tmpDirLive := true } := rfl

/-- C5 amended: only a tile missing from the index is passed over without
halting the batch (warning + `continue`, lines 160-162); a tile whose
retry bound is exhausted makes the re-raise at line 378 propagate out of
the tile loop, so the batch stops: the failing tile is the last one
processed, the remaining tiles are never attempted, and the failure is
surfaced as an exception from `download_lidar_dsm`, not as a per-tile
result. -/
theorem c5_amended_theorem :
    (∀ (gdfNames : List String) (m : Nat) (name : String)
        (oracle : Nat → AttemptOutcome)
        (rest : List (String × (Nat → AttemptOutcome))) (st : BatchSt),
      name ∉ gdfNames →
      tileLoop gdfNames m ((name, oracle) :: rest) st =
        tileLoop gdfNames m rest { st with skipped := st.skipped ++ [name] }) ∧
    (∀ (gdfNames : List String) (m : Nat) (name : String)
        (oracle : Nat → AttemptOutcome)
        (rest : List (String × (Nat → AttemptOutcome))) (st : BatchSt),
      name ∈ gdfNames →
      (∀ i, oracle i = .failure) → 0 < m →
      tileLoop gdfNames m ((name, oracle) :: rest) st =
        .error { st with processed := st.processed ++ [name],
                         opens := st.opens + m, quits := st.quits + m }) := by
  constructor
  · intro gdfNames m name oracle rest st h
    simp [tileLoop, h]
  · intro gdfNames m name oracle rest st h hf hm
    have := retryGo_allfail oracle hf m 0
      { st with processed := st.processed ++ [name] } hm
    simp [tileLoop, h, retryLoop, this]

/-- Witness for C5 amended: tile `"B"` missing from a one-name index is
skipped with the loop continuing, and tile `"A"`, present with two
all-failing attempts under `max_retries = 2`, raises with `"A"` recorded
as processed and both sessions opened and quit. -/
theorem c5_witness :
    (tileLoop ["A"] 1 [("B", fun _ => AttemptOutcome.success)]
        { opens := 0, quits := 0, processed := [], skipped := [],
          tmpDirLive := true } =
      tileLoop ["A"] 1 []
        { opens := 0, quits := 0, processed := [],
          skipped := ([] : List String) ++ ["B"], tmpDirLive := true }) ∧
    (tileLoop ["A"] 2 [("A", fun _ => AttemptOutcome.failure)]
        { opens := 0, quits := 0, processed := [], skipped := [],
          tmpDirLive := true } =
      .error { opens := 0 + 2, quits := 0 + 2,
               processed := ([] : List String) ++ ["A"], skipped := [],
               tmpDirLive := true }) :=
  ⟨c5_amended_theorem.1 ["A"] 1 "B" (fun _ => AttemptOutcome.success) []
      { opens := 0, quits := 0, processed := [], skipped := [],
        tmpDirLive := true } (by decide),
   c5_amended_theorem.2 ["A"] 2 "A" (fun _ => AttemptOutcome.failure) []
      { opens := 0, quits := 0, processed := [], skipped := [],
        tmpDirLive := true } (by decide) (fun i => rfl) (by decide)⟩

/-! ### Per-link processing, tile_downloader.py lines 296-342

The body of `for name, href in matching_products:` for one tile:

- `temp_zip_path = os.path.join(tmp_dir, f"...zip")` (line 303); if it
  already exists the link is skipped (`continue`, lines 306-309);
- `await download_file(href, temp_zip_path, session)` (line 312): one
  network request writing the zip into the temp directory;
- `zip_ref.extractall(tmp_dir)` (lines 317-318): the archive's entries
  land in the shared temp directory (entry lists are injected via
  `fetchArchive`);
- `glob.glob(os.path.join(tmp_dir, "*.tif"))` (line 322): the top-level
  `.tif` files of the temp directory; if none, print and `continue`
  (lines 323-325); otherwise `tiff_file = tiff_files[0]` (line 326);
- `cog_output_path = os.path.join(tile_output_dir, f"cog_...tif")`
  (line 331): a path built from the tile name only;
- `convert_cog(tiff_file, cog_output_path)` (line 333), whose outcome is
  injected via `convOutcome`;
- cleanup (lines 338-342): `os.remove(temp_zip_path)` and
  `shutil.rmtree(tmp_dir/<stem of the tif>, ignore_errors=True)` — a
  directory named after the tif's stem; the tif file itself stays.

File names are relative to the temp directory; `requests` counts
`download_file` calls, `writes` records `(cog path, source tif)` COG
writes in order, `convLogs` the conversion errors printed by
`convert_cog`. -/

/-- Outcome of the external `cog_translate` call. -/
inductive ConvResult where
  | ok
  | failed (msg : String)
deriving DecidableEq, Repr

/-- `convert_cog`, tile_downloader.py lines 35-61: the `cog_translate`
call sits in a `try`/`except Exception` that prints the error (line 61),
so the function returns normally on both outcomes: the Bool says whether
the COG was written, the Option the logged error message.  Nothing is
ever raised to the caller. -/
def convert_cog (r : ConvResult) : Bool × Option String :=
  match r with
  | .ok => (true, none)
  | .failed m => (false, some m)

/-- The injected collaborators of the per-link loop for one tile. -/
structure LinkEnv where
  tile : String
  outputDir : String
  fetchArchive : String → List String
  convOutcome : String → ConvResult

/-- Observable state threaded through the per-link loop. -/
structure PLSt where
  tmpFiles : List String
  requests : Nat
  writes : List (String × String)
  convLogs : List String
deriving DecidableEq, Repr

/-- The empty starting state (fresh `mkdtemp` directory, no files written,
no requests issued). -/
def emptyPLSt : PLSt :=
  { tmpFiles := [], requests := 0, writes := [], convLogs := [] }

/-- `cog_output_path` (line 331): a function of the output directory and
the tile name only — the link being processed does not occur in it. -/
def cogDest (outputDir tile : String) : String :=
  outputDir ++ "/" ++ tile ++ "/cog_" ++ tile ++ ".tif"

/-- `temp_zip_path` relative to the temp directory (line 303). -/
def tempZipName (l : Link) : String := l.1 ++ ".zip"

/-- `charsEndWith suf s`: `s` ends with `suf`. -/
def charsEndWith (suf s : List Char) : Bool :=
  charsStartWith suf.reverse s.reverse

/-- Membership in `glob.glob(tmp_dir + "/*.tif")`: a top-level entry
(no directory separator) with the `.tif` extension. -/
def isTopTif (f : String) : Bool :=
  charsEndWith ".tif".data f.data && !(f.data.any fun c => c == '/')

/-- Split a character list on a separator (groups between separators). -/
def splitOnChar (sep : Char) : List Char → List (List Char)
  | [] => [[]]
  | c :: rest =>
    match splitOnChar sep rest with
    | [] => [[c]]
    | g :: gs => if c == sep then [] :: g :: gs else (c :: g) :: gs

/-- `os.path.basename`: the part after the last `/`. -/
def baseName (f : String) : String :=
  String.mk ((splitOnChar '/' f.data).getLastD f.data)

/-- `os.path.splitext(...)[0]`: drop the last extension. -/
def dropLastExt (s : String) : String :=
  let parts := splitOnChar '.' s.data
  if parts.length ≤ 1 then s
  else String.mk (List.intercalate ['.'] parts.dropLast)

/-- `shutil.rmtree(tmp_dir/dir, ignore_errors=True)`: removes the entries
under directory `dir`; a plain file named `dir` + extension is not under
it and survives. -/
def rmtreeDir (dir : String) (files : List String) : List String :=
  files.filter (fun f => !(charsStartWith (dir ++ "/").data f.data))

/-- Temp-directory contents after the download of the link's zip and its
extraction (lines 312-318). -/
def afterFetch (env : LinkEnv) (st : PLSt) (l : Link) : List String :=
  (st.tmpFiles ++ [tempZipName l]) ++ env.fetchArchive l.2

/-- One iteration of the `for name, href in matching_products:` loop
(lines 296-342), as documented above. -/
def processLink (env : LinkEnv) (st : PLSt) (l : Link) : PLSt :=
  if tempZipName l ∈ st.tmpFiles then st
  else
    match (afterFetch env st l).filter isTopTif with
    | [] => { st with requests := st.requests + 1,
                      tmpFiles := afterFetch env st l }
    | t :: _ =>
      let res := convert_cog (env.convOutcome t)
      { st with
        requests := st.requests + 1,
        tmpFiles := rmtreeDir (dropLastExt (baseName t))
          ((afterFetch env st l).erase (tempZipName l)),
        writes := if res.1 then
            st.writes ++ [(cogDest env.outputDir env.tile, t)]
          else st.writes,
        convLogs := match res.2 with
          | some m => st.convLogs ++ [m]
          | none => st.convLogs }

/-- The whole `for name, href in matching_products:` loop. -/
def processLinks (env : LinkEnv) (links : List Link) (st : PLSt) : PLSt :=
  links.foldl (processLink env) st

/-- The file surviving at path `p` after a sequence of writes (later
writes to the same path overwrite earlier ones). -/
def applyWrites (ws : List (String × String)) (p : String) : Option String :=
  ((ws.filter (fun w => w.1 == p)).getLast?).map (fun w => w.2)

/-- Two matched links whose archives carry one raster each, with
conversion always succeeding. -/
def demoEnv : LinkEnv :=
  { tile := "T", outputDir := "out",
    fetchArchive := fun h => if h == "h1" then ["a.tif"] else ["b.tif"],
    convOutcome := fun _ => .ok }

/-- First link's archive has no raster payload, second link's does. -/
def demoEnvNoTif : LinkEnv :=
  { tile := "T", outputDir := "out",
    fetchArchive := fun h => if h == "h1" then ["readme.txt"] else ["b.tif"],
    convOutcome := fun _ => .ok }

/-- Every archive carries one raster, and every conversion fails. -/
def demoEnvConvFail : LinkEnv :=
  { tile := "T", outputDir := "out",
    fetchArchive := fun _ => ["a.tif"],
    convOutcome := fun _ => .failed "boom" }

theorem charsStartWith_mem :
    ∀ (p s : List Char), charsStartWith p s = true → ∀ c ∈ p, c ∈ s := by
  intro p
  induction p with
  | nil => intro s _ c hc; exact absurd hc (List.not_mem_nil c)
  | cons a ps ih =>
    intro s h c hc
    cases s with
    | nil => exact absurd h (by simp [charsStartWith])
    | cons b bs =>
      simp only [charsStartWith] at h
      obtain ⟨hab, hrest⟩ := (Bool.and_eq_true _ _).mp h
      rcases List.mem_cons.mp hc with rfl | hc
      · rw [eq_of_beq hab]; exact List.mem_cons_self b bs
      · exact List.mem_cons_of_mem b (ih bs hrest c hc)

theorem isTopTif_tempZip (l : Link) : isTopTif (tempZipName l) = false := by
  have hd : (tempZipName l).data = l.1.data ++ ['.', 'z', 'i', 'p'] := by
    rw [tempZipName, String.data_append]
  have h1 : (".tif".data).reverse = ['f', 'i', 't', '.'] := by decide
  have h2 : (['.', 'z', 'i', 'p'] : List Char).reverse = ['p', 'i', 'z', '.'] := by
    decide
  simp [isTopTif, charsEndWith, hd, h1, h2, List.reverse_append, charsStartWith]

theorem not_under_dir_of_noSlash (dir t : String)
    (h : (t.data.any fun c => c == '/') = false) :
    charsStartWith (dir ++ "/").data t.data = false := by
  cases hcw : charsStartWith (dir ++ "/").data t.data with
  | false => rfl
  | true =>
    exfalso
    have hsl : '/' ∈ (dir ++ "/").data := by
      rw [String.data_append]
      exact List.mem_append_right _ (by decide)
    have hmem : '/' ∈ t.data := charsStartWith_mem _ _ hcw '/' hsl
    exact (List.any_eq_false.mp h) '/' hmem rfl

theorem processLink_writes_mem (env : LinkEnv) (st : PLSt) (l : Link)
    (w : String × String) (hw : w ∈ (processLink env st l).writes) :
    w ∈ st.writes ∨ w.1 = cogDest env.outputDir env.tile := by
  unfold processLink at hw
  split at hw
  · exact Or.inl hw
  · split at hw
    · exact Or.inl hw
    · dsimp only at hw
      split at hw
      · rcases List.mem_append.mp hw with h | h
        · exact Or.inl h
        · right
          rw [List.mem_singleton.mp h]
      · exact Or.inl hw

theorem processLinks_writes_mem (env : LinkEnv) :
    ∀ (links : List Link) (st : PLSt) (w : String × String),
      w ∈ (processLinks env links st).writes →
      w ∈ st.writes ∨ w.1 = cogDest env.outputDir env.tile := by
  intro links
  induction links with
  | nil => intro st w hw; exact Or.inl hw
  | cons l ls ih =>
    intro st w hw
    rcases ih (processLink env st l) w hw with h | h
    · exact processLink_writes_mem env st l w h
    · exact Or.inr h

/-- C10: within one tile's link loop the COG destination path is a
function of the configuration (output directory and tile name) alone —
every COG write of every link targets `cogDest`, so with several matched
links each later conversion overwrites the earlier one and at most one
converted raster per tile survives (starting from an empty state, any
path holding a file after the loop is `cogDest`); moreover the raster
converted for a link is the first `.tif` of the shared temp directory,
not necessarily one extracted from that link's archive: in the concrete
two-link run both conversions read `"a.tif"`, which the second link's
archive does not contain. -/
theorem c10_theorem :
    (∀ (env : LinkEnv) (links : List Link) (st : PLSt) (w : String × String),
      w ∈ (processLinks env links st).writes →
      w ∈ st.writes ∨ w.1 = cogDest env.outputDir env.tile) ∧
    (∀ (env : LinkEnv) (links : List Link) (p : String),
      applyWrites (processLinks env links emptyPLSt).writes p ≠ none →
      p = cogDest env.outputDir env.tile) ∧
    ((processLinks demoEnv [("A", "h1"), ("B", "h2")] emptyPLSt).writes =
        [(cogDest "out" "T", "a.tif"), (cogDest "out" "T", "a.tif")] ∧
      "a.tif" ∉ demoEnv.fetchArchive "h2") := by
  refine ⟨processLinks_writes_mem, ?_, by decide, by decide⟩
  intro env links p h
  cases hfe : ((processLinks env links emptyPLSt).writes.filter
      (fun w => w.1 == p)) with
  | nil =>
    exfalso
    apply h
    unfold applyWrites
    rw [hfe]
    rfl
  | cons a as =>
    have ham : a ∈ (processLinks env links emptyPLSt).writes.filter
        (fun w => w.1 == p) := by
      rw [hfe]; exact List.mem_cons_self a as
    obtain ⟨haw, hap⟩ := List.mem_filter.mp ham
    rcases processLinks_writes_mem env links emptyPLSt a haw with h0 | h0
    · exact absurd h0 (List.not_mem_nil a)
    · rw [← eq_of_beq hap, h0]

/-- Witness for C10: in the concrete two-link run, the recorded write
`(cogDest "out" "T", "a.tif")` belongs to the loop's writes, and by the
theorem it targets the tile-determined COG destination (the initial
state's writes being empty). -/
theorem c10_witness :
    (cogDest "out" "T", "a.tif") ∈ emptyPLSt.writes ∨
      (cogDest "out" "T", "a.tif").1 = cogDest demoEnv.outputDir demoEnv.tile :=
  c10_theorem.1 demoEnv [("A", "h1"), ("B", "h2")] emptyPLSt
    (cogDest "out" "T", "a.tif") (by decide)

/-- C2 counterexample: the pipeline run twice for the same link.  The
first run (on a fresh temp directory) downloads and converts, leaving the
COG under the output directory.  The second process run starts with a
fresh `tempfile.mkdtemp()` directory (line 135), so the existence check
at line 306 — which tests `temp_zip_path` inside that temp directory, not
the durable destination — finds nothing: the second run issues one
network request, not zero, and does not skip. -/
theorem c2_counterexample :
    (processLink demoEnv emptyPLSt ("A", "h1")).writes =
        [(cogDest "out" "T", "a.tif")] ∧
      (processLink demoEnv
          { tmpFiles := [], requests := 0,
            writes := (processLink demoEnv emptyPLSt ("A", "h1")).writes,
            convLogs := [] } ("A", "h1")).requests = 1 := by
  decide

/-- C2 amended: the download step is idempotent only within one process
run and only against the run's temp directory: when the link's zip path
already exists among the temp directory's files, the link is skipped with
zero network requests and the state entirely unchanged; but the existence
check targets the per-run `mkdtemp` directory, so a run starting with a
fresh temp directory issues one request for the link regardless of what
earlier runs left in the output directory. -/
theorem c2_amended_theorem :
    (∀ (env : LinkEnv) (st : PLSt) (l : Link),
      tempZipName l ∈ st.tmpFiles → processLink env st l = st) ∧
    (∀ (env : LinkEnv) (l : Link) (ws : List (String × String))
        (logs : List String),
      (processLink env
          { tmpFiles := [], requests := 0, writes := ws,
            convLogs := logs } l).requests = 1) := by
  constructor
  · intro env st l h
    unfold processLink
    rw [if_pos h]
  · intro env l ws logs
    unfold processLink
    rw [if_neg (by simp)]
    split <;> rfl

/-- Witness for C2 amended: with the zip already in the temp directory
the state is returned unchanged, and on a fresh temp directory the call
issues exactly one request. -/
theorem c2_witness :
    processLink demoEnv
        { tmpFiles := ["A.zip"], requests := 0, writes := [], convLogs := [] }
        ("A", "h1") =
      { tmpFiles := ["A.zip"], requests := 0, writes := [], convLogs := [] } ∧
    (processLink demoEnv
        { tmpFiles := [], requests := 0,
          writes := [(cogDest "out" "T", "a.tif")],
          convLogs := [] } ("A", "h1")).requests = 1 :=
  ⟨c2_amended_theorem.1 demoEnv
      { tmpFiles := ["A.zip"], requests := 0, writes := [], convLogs := [] }
      ("A", "h1") (by decide),
   c2_amended_theorem.2 demoEnv ("A", "h1") [(cogDest "out" "T", "a.tif")] []⟩

/-- C8 counterexample: the first link's archive extracts with no `.tif`
payload.  Lines 323-325 print " ...No TIFF file found" and `continue`:
no error of any kind is raised — the link is silently skipped and the
loop proceeds to the second link (two requests issued, and only the
second link's raster is converted). -/
theorem c8_counterexample :
    (processLinks demoEnvNoTif [("A", "h1"), ("B", "h2")] emptyPLSt).requests
        = 2 ∧
      (processLinks demoEnvNoTif [("A", "h1"), ("B", "h2")] emptyPLSt).writes =
        [(cogDest "out" "T", "b.tif")] ∧
      (processLinks demoEnvNoTif [("A", "h1"), ("B", "h2")] emptyPLSt).convLogs
        = [] := by
  decide

/-- C8 amended: when a downloaded archive leaves no `.tif` in the temp
directory, the post-processing step does not fail: the link is silently
skipped (one request made, the extracted files left in place, no write
and no log) and processing returns normally, continuing with the next
link — no `MissingArtifact`-style error exists on this path. -/
theorem c8_amended_theorem :
    ∀ (env : LinkEnv) (st : PLSt) (l : Link),
      tempZipName l ∉ st.tmpFiles →
      (afterFetch env st l).filter isTopTif = [] →
      processLink env st l =
        { st with requests := st.requests + 1,
                  tmpFiles := afterFetch env st l } := by
  intro env st l h1 h2
  unfold processLink
  rw [if_neg h1, h2]

/-- Witness for C8 amended: the concrete no-raster archive of the first
demo link is skipped with one request and the extracted files kept. -/
theorem c8_witness :
    processLink demoEnvNoTif emptyPLSt ("A", "h1") =
      { emptyPLSt with requests := emptyPLSt.requests + 1,
                       tmpFiles := afterFetch demoEnvNoTif emptyPLSt ("A", "h1") } :=
  c8_amended_theorem demoEnvNoTif emptyPLSt ("A", "h1") (by decide) (by decide)

/-- C9 counterexample: every conversion fails, yet `convert_cog` returns
normally — the `except Exception` at lines 60-61 swallows the error and
prints it, so no `ConversionError` (which does not exist in the code)
nor any other exception reaches the caller; the two-link batch proceeds
through both links (two requests), the COG is missing (no writes), both
failures are merely logged, and the raw rasters remain in the temp
directory. -/
theorem c9_counterexample :
    convert_cog (.failed "boom") = (false, some "boom") ∧
      (processLinks demoEnvConvFail [("A", "h1"), ("B", "h2")]
          emptyPLSt).requests = 2 ∧
      (processLinks demoEnvConvFail [("A", "h1"), ("B", "h2")]
          emptyPLSt).writes = [] ∧
      (processLinks demoEnvConvFail [("A", "h1"), ("B", "h2")]
          emptyPLSt).convLogs = ["boom", "boom"] ∧
      (processLinks demoEnvConvFail [("A", "h1"), ("B", "h2")]
          emptyPLSt).tmpFiles = ["a.tif", "a.tif"] := by
  decide

/-- C9 amended: a conversion failure is caught inside `convert_cog` and
logged — the function returns normally on every outcome, so the failure
can never trigger a retry of the already-successful download (the retry
loop is driven only by exceptions) — and the per-link step then leaves
the recorded writes unchanged (COG missing), appends the message to the
conversion log, still counts exactly the one download request, and
retains the raw raster in the temp directory; the batch proceeds. -/
theorem c9_amended_theorem :
    (∀ m, convert_cog (.failed m) = (false, some m)) ∧
    (∀ (env : LinkEnv) (st : PLSt) (l : Link) (t : String)
        (rest : List String) (m : String),
      tempZipName l ∉ st.tmpFiles →
      (afterFetch env st l).filter isTopTif = t :: rest →
      env.convOutcome t = .failed m →
      (processLink env st l).writes = st.writes ∧
        (processLink env st l).convLogs = st.convLogs ++ [m] ∧
        (processLink env st l).requests = st.requests + 1 ∧
        t ∈ (processLink env st l).tmpFiles) := by
  refine ⟨fun m => rfl, ?_⟩
  intro env st l t rest m h1 h2 h3
  have hmem : t ∈ (afterFetch env st l).filter isTopTif := by
    rw [h2]; exact List.mem_cons_self t rest
  obtain ⟨htaf, htif⟩ := List.mem_filter.mp hmem
  have hne : t ≠ tempZipName l := by
    intro he
    rw [he, isTopTif_tempZip] at htif
    cases htif
  have hred : processLink env st l =
      { st with requests := st.requests + 1,
                tmpFiles := rmtreeDir (dropLastExt (baseName t))
                  ((afterFetch env st l).erase (tempZipName l)),
                convLogs := st.convLogs ++ [m] } := by
    unfold processLink
    rw [if_neg h1, h2]
    dsimp only
    rw [h3]
    rfl
  rw [hred]
  refine ⟨rfl, rfl, rfl, ?_⟩
  have hns : (t.data.any fun c => c == '/') = false := by
    have := (Bool.and_eq_true _ _).mp htif
    have h4 := this.2
    cases hny : t.data.any fun c => c == '/'
    · rfl
    · rw [hny] at h4; cases h4
  apply List.mem_filter.mpr
  refine ⟨(List.mem_erase_of_ne hne).mpr htaf, ?_⟩
  rw [not_under_dir_of_noSlash _ _ hns]
  rfl

/-- Witness for C9 amended: a concrete failing conversion returns
normally with its message, and the concrete per-link run keeps the
writes empty, logs "boom", counts one request and retains `"a.tif"`. -/
theorem c9_witness :
    convert_cog (.failed "x") = (false, some "x") ∧
      ((processLink demoEnvConvFail emptyPLSt ("A", "h1")).writes =
          emptyPLSt.writes ∧
        (processLink demoEnvConvFail emptyPLSt ("A", "h1")).convLogs =
          emptyPLSt.convLogs ++ ["boom"] ∧
        (processLink demoEnvConvFail emptyPLSt ("A", "h1")).requests =
          emptyPLSt.requests + 1 ∧
        "a.tif" ∈ (processLink demoEnvConvFail emptyPLSt ("A", "h1")).tmpFiles) :=
  ⟨c9_amended_theorem.1 "x",
   c9_amended_theorem.2 demoEnvConvFail emptyPLSt ("A", "h1") "a.tif" [] "boom"
     (by decide) (by decide) (by decide)⟩

end EaLidar
